import Mathlib

/-!
Verification of the `twitter_extractor.py` script: a shallow embedding of its
JSON handling and extraction logic, followed by theorems about the claims of
the specification.

JSON values are modelled by the inductive `Json`.  Python operations that can
raise (`d[k]`, `.get` on a non-dict, iteration over a non-iterable, `in` on a
non-container) are modelled in `Except Unit`; the `try/except` blocks of the
script turn an `Except.error` into `none`.
-/

set_option autoImplicit false

namespace Twatter

/-- A JSON document as produced by `json.load` / `response.json()`. -/
inductive Json where
  | null
  | bool (b : Bool)
  | num (n : Int)
  | str (s : String)
  | arr (elems : List Json)
  | obj (fields : List (String × Json))

/-- First value bound to key `k` in a field list (Python dict lookup;
`json.load` produces unique keys). -/
def jLookup (k : String) : List (String × Json) → Option Json
  | [] => none
  | (k', v) :: rest => if k' == k then some v else jLookup k rest

/-- Python `d.get(k)`: `None` (here `Json.null`) when the key is absent,
`AttributeError` when `d` is not a dict. -/
def pyGet (d : Json) (k : String) : Except Unit Json :=
  match d with
  | .obj kvs => .ok ((jLookup k kvs).getD Json.null)
  | _ => .error ()

/-- Python `d.get(k, dflt)`: the default when the key is absent,
`AttributeError` when `d` is not a dict. -/
def pyGetD (d : Json) (k : String) (dflt : Json) : Except Unit Json :=
  match d with
  | .obj kvs => .ok ((jLookup k kvs).getD dflt)
  | _ => .error ()

/-- Python `d[k]`: `KeyError` when absent, `TypeError` when `d` is not a dict. -/
def pyIndex (d : Json) (k : String) : Except Unit Json :=
  match d with
  | .obj kvs =>
    match jLookup k kvs with
    | some v => .ok v
    | none => .error ()
  | _ => .error ()

/-- Python `for x in d`: lists yield elements, strings yield one-character
strings, dicts yield their keys, everything else raises `TypeError`. -/
def pyIter (d : Json) : Except Unit (List Json) :=
  match d with
  | .arr xs => .ok xs
  | .str s => .ok (s.toList.map (fun c => Json.str (String.mk [c])))
  | .obj kvs => .ok (kvs.map (fun kv => Json.str kv.fst))
  | _ => .error ()

/-- Python truthiness of a JSON value (`if not x`). -/
def pyTruthy : Json → Bool
  | .null => false
  | .bool b => b
  | .num n => n != 0
  | .str s => s != ""
  | .arr xs => !xs.isEmpty
  | .obj kvs => !kvs.isEmpty

/-- Python `x == s` for a string literal `s`: true exactly when `x` is the
same string (a non-string JSON value never equals a string). -/
def jsonEqStr (j : Json) (s : String) : Bool :=
  match j with
  | .str t => t == s
  | _ => false

/-- `isPreOf p l` : `p` is an initial segment of `l`. -/
def isPreOf : List Char → List Char → Bool
  | [], _ => true
  | _ :: _, [] => false
  | c :: cs, d :: ds => c == d && isPreOf cs ds

/-- `containsSub hay pat` : `pat` occurs as a contiguous substring of `hay`. -/
def containsSub : List Char → List Char → Bool
  | [], pat => pat.isEmpty
  | hay@(_ :: t), pat => isPreOf pat hay || containsSub t pat

/-- Python `needle in hay` where `needle` is a string literal: substring test
on strings, membership on lists, key membership on dicts, `TypeError`
otherwise. -/
def pyInStr (needle : String) (hay : Json) : Except Unit Bool :=
  match hay with
  | .str s => .ok (containsSub s.toList needle.toList)
  | .arr xs => .ok (xs.any (fun x => jsonEqStr x needle))
  | .obj kvs => .ok (kvs.any (fun kv => kv.fst == needle))
  | _ => .error ()

/-- One element of the output `media` list (only these three fields are
copied from the vendor media object). -/
structure MediaItem where
  type : Json
  url : Json
  display_url : Json

/-- The `tweet_info` dict built by `_extract_tweet_data`. -/
structure TweetInfo where
  tweet_id : Json
  text : Json
  created_at : Json
  retweet_count : Json
  favorite_count : Json
  reply_count : Json
  quote_count : Json
  bookmark_count : Json
  views : Json
  lang : Json
  source : Json
  media : List MediaItem

/-- The `user_info` dict built by `_extract_tweet_data`. -/
structure UserInfo where
  user_id : Json
  screen_name : Json
  name : Json
  description : Json
  location : Json
  followers_count : Json
  friends_count : Json
  statuses_count : Json
  created_at : Json
  verified : Json
  is_blue_verified : Json
  profile_image_url : Json
  profile_banner_url : Json
  url : Json

/-- The record returned by `_extract_tweet_data` (the `extracted_at`
timestamp is passed in explicitly instead of reading the wall clock). -/
structure ExtractedData where
  extracted_at : String
  tweet : TweetInfo
  user : UserInfo

/-- The media loop of `_extract_tweet_data`: one output item per source item,
in order, copying `type` / `media_url_https` / `display_url`. -/
def extractMedia : List Json → Except Unit (List MediaItem)
  | [] => .ok []
  | m :: rest => do
    let t ← pyGet m "type"
    let u ← pyGet m "media_url_https"
    let du ← pyGet m "display_url"
    let tail ← extractMedia rest
    pure ({ type := t, url := u, display_url := du } :: tail)

/-- `TwitterExtractor._extract_tweet_data`, with `now` standing for
`datetime.now().isoformat()`. -/
def _extract_tweet_data (now : String) (tweet_data : Json) :
    Except Unit ExtractedData := do
  let legacy ← pyGetD tweet_data "legacy" (Json.obj [])
  let core ← pyGetD tweet_data "core" (Json.obj [])
  let user_results ← pyGetD core "user_results" (Json.obj [])
  let user_result ← pyGetD user_results "result" (Json.obj [])
  let user_legacy ← pyGetD user_result "legacy" (Json.obj [])
  let tweet_id ← pyGet tweet_data "rest_id"
  let text ← pyGetD legacy "full_text" (Json.str "")
  let created_at ← pyGetD legacy "created_at" (Json.str "")
  let retweet_count ← pyGetD legacy "retweet_count" (Json.num 0)
  let favorite_count ← pyGetD legacy "favorite_count" (Json.num 0)
  let reply_count ← pyGetD legacy "reply_count" (Json.num 0)
  let quote_count ← pyGetD legacy "quote_count" (Json.num 0)
  let bookmark_count ← pyGetD legacy "bookmark_count" (Json.num 0)
  let views_obj ← pyGetD tweet_data "views" (Json.obj [])
  let views ← pyGet views_obj "count"
  let lang ← pyGetD legacy "lang" (Json.str "")
  let source ← pyGetD legacy "source" (Json.str "")
  let ee ← pyGetD legacy "extended_entities" (Json.obj [])
  let media_json ← pyGetD ee "media" (Json.arr [])
  let media_elems ← pyIter media_json
  let media ← extractMedia media_elems
  let user_id ← pyGet user_result "rest_id"
  let screen_name ← pyGetD user_legacy "screen_name" (Json.str "")
  let name ← pyGetD user_legacy "name" (Json.str "")
  let description ← pyGetD user_legacy "description" (Json.str "")
  let location ← pyGetD user_legacy "location" (Json.str "")
  let followers_count ← pyGetD user_legacy "followers_count" (Json.num 0)
  let friends_count ← pyGetD user_legacy "friends_count" (Json.num 0)
  let statuses_count ← pyGetD user_legacy "statuses_count" (Json.num 0)
  let user_created_at ← pyGetD user_legacy "created_at" (Json.str "")
  let verified ← pyGetD user_legacy "verified" (Json.bool false)
  let is_blue_verified ← pyGetD user_result "is_blue_verified" (Json.bool false)
  let profile_image_url ← pyGetD user_legacy "profile_image_url_https" (Json.str "")
  let profile_banner_url ← pyGetD user_legacy "profile_banner_url" (Json.str "")
  let url ← pyGetD user_legacy "url" (Json.str "")
  pure
    { extracted_at := now
      tweet :=
        { tweet_id := tweet_id
          text := text
          created_at := created_at
          retweet_count := retweet_count
          favorite_count := favorite_count
          reply_count := reply_count
          quote_count := quote_count
          bookmark_count := bookmark_count
          views := views
          lang := lang
          source := source
          media := media }
      user :=
        { user_id := user_id
          screen_name := screen_name
          name := name
          description := description
          location := location
          followers_count := followers_count
          friends_count := friends_count
          statuses_count := statuses_count
          created_at := user_created_at
          verified := verified
          is_blue_verified := is_blue_verified
          profile_image_url := profile_image_url
          profile_banner_url := profile_banner_url
          url := url } }

/-- The instruction loop of `extract_from_tweet_detail`: find the first
instruction whose `type` is `TimelineAddEntries` and return its `entries`
(default `[]`); `none` when no instruction matches. -/
def findEntries : List Json → Except Unit (Option Json)
  | [] => .ok none
  | instruction :: rest => do
    let t ← pyGet instruction "type"
    if jsonEqStr t "TimelineAddEntries" then
      let e ← pyGetD instruction "entries" (Json.arr [])
      pure (some e)
    else
      findEntries rest

/-- The descent `content → itemContent → tweet_results → result` performed on
a marker-matching entry. -/
def entryResultChain (entry : Json) : Except Unit Json := do
  let content ← pyGetD entry "content" (Json.obj [])
  let item_content ← pyGetD content "itemContent" (Json.obj [])
  let tweet_results ← pyGetD item_content "tweet_results" (Json.obj [])
  pyGetD tweet_results "result" (Json.obj [])

/-- One iteration of the entry loop of `extract_from_tweet_detail`:
`some result` when the entry id contains `tweet-` and the resolved result is
`Tweet`-typed (the loop breaks), `none` when the loop continues. -/
def entryQualifies (entry : Json) : Except Unit (Option Json) := do
  let entry_id ← pyGetD entry "entryId" (Json.str "")
  let has_marker ← pyInStr "tweet-" entry_id
  if has_marker then
    let result ← entryResultChain entry
    let tn ← pyGet result "__typename"
    if jsonEqStr tn "Tweet" then pure (some result) else pure none
  else
    pure none

/-- The entry loop of `extract_from_tweet_detail`: first qualifying entry
wins; `none` when no entry qualifies. -/
def findFocal : List Json → Except Unit (Option Json)
  | [] => .ok none
  | entry :: rest => do
    match ← entryQualifies entry with
    | some r => pure (some r)
    | none => findFocal rest

/-- Locating the focal tweet inside a `TweetDetail` response: the descent to
`instructions`, the instruction scan, the `if not entries` guard and the
entry scan of `extract_from_tweet_detail`. -/
def tweetDetailFocal (response_data : Json) : Except Unit (Option Json) := do
  let data ← pyIndex response_data "data"
  let conv ← pyIndex data "threaded_conversation_with_injections_v2"
  let instructions ← pyIndex conv "instructions"
  let instr_list ← pyIter instructions
  match ← findEntries instr_list with
  | none => pure none
  | some entries =>
    if pyTruthy entries then do
      let entry_list ← pyIter entries
      findFocal entry_list
    else
      pure none

/-- Body of `extract_from_tweet_detail` before its `try/except` is applied. -/
def tweetDetailCore (now : String) (response_data : Json) :
    Except Unit (Option ExtractedData) := do
  match ← tweetDetailFocal response_data with
  | none => pure none
  | some focal_tweet =>
    if pyTruthy focal_tweet then do
      let ed ← _extract_tweet_data now focal_tweet
      pure (some ed)
    else
      pure none

/-- `TwitterExtractor.extract_from_tweet_detail`: the `try/except` turns any
raised exception into `None`. -/
def extract_from_tweet_detail (now : String) (response_data : Json) :
    Option ExtractedData :=
  match tweetDetailCore now response_data with
  | .ok r => r
  | .error _ => none

/-- `response_data['data']['tweetResult']` of `extract_from_tweet_result`. -/
def secondaryWrapper (response_data : Json) : Except Unit Json := do
  let data ← pyIndex response_data "data"
  pyIndex data "tweetResult"

/-- The located target object of the secondary shape:
`tweet_result.get('result', {})`. -/
def secondaryTarget (response_data : Json) : Except Unit Json := do
  let tweet_result ← secondaryWrapper response_data
  pyGetD tweet_result "result" (Json.obj [])

/-- Body of `extract_from_tweet_result` before its `try/except` is applied. -/
def tweetResultCore (now : String) (response_data : Json) :
    Except Unit (Option ExtractedData) := do
  let tweet_result ← secondaryWrapper response_data
  let target ← pyGetD tweet_result "result" (Json.obj [])
  let tn ← pyGet target "__typename"
  if jsonEqStr tn "Tweet" then do
    let inner ← pyIndex tweet_result "result"
    let ed ← _extract_tweet_data now inner
    pure (some ed)
  else
    pure none

/-- `TwitterExtractor.extract_from_tweet_result`: the `try/except` turns any
raised exception into `None`. -/
def extract_from_tweet_result (now : String) (response_data : Json) :
    Option ExtractedData :=
  match tweetResultCore now response_data with
  | .ok r => r
  | .error _ => none

/-- One network call performed by `fetch_and_extract`, in order. -/
inductive FetchCall where
  | detail (tweet_id : String)
  | result (tweet_id : String)

/-- `TwitterExtractor.fetch_and_extract`.  The two fetchers are passed in as
oracles (`none` = fetch failure); the returned list records the fetch calls
made, in order.  `if api_data:` is Python truthiness of the fetched JSON. -/
def fetch_and_extract (fetchDetail fetchResult : String → Option Json)
    (now tweet_id : String) : Option ExtractedData × List FetchCall :=
  let primary := fetchDetail tweet_id
  let extracted : Option ExtractedData :=
    match primary with
    | some api_data =>
      if pyTruthy api_data then extract_from_tweet_detail now api_data else none
    | none => none
  match extracted with
  | some ed => (some ed, [FetchCall.detail tweet_id])
  | none =>
    let secondary := fetchResult tweet_id
    let extracted2 : Option ExtractedData :=
      match secondary with
      | some api_data =>
        if pyTruthy api_data then extract_from_tweet_result now api_data else none
      | none => none
    (extracted2, [FetchCall.detail tweet_id, FetchCall.result tweet_id])

/-- `TwitterExtractor.extract_from_file`, given the already-parsed saved
response document (file reading and saving is plain I/O glue). -/
def extract_from_file (now : String) (response_data : Json) :
    Option ExtractedData :=
  match extract_from_tweet_detail now response_data with
  | some ed => some ed
  | none => extract_from_tweet_result now response_data

/-- Test fixture: a minimal `TweetDetail`-shaped response holding the given
entry list. -/
def mkDetailResponse (entries : List Json) : Json :=
  Json.obj
    [("data", Json.obj
      [("threaded_conversation_with_injections_v2", Json.obj
        [("instructions", Json.arr
          [Json.obj
            [("type", Json.str "TimelineAddEntries"),
             ("entries", Json.arr entries)]])])])]

/-- Test fixture: a media object carrying the three copied fields plus two
vendor fields that the mapping must drop. -/
def mkMediaObj (t u du : Json) : Json :=
  Json.obj
    [("type", t), ("media_url_https", u), ("display_url", du),
     ("sizes", Json.obj []), ("id_str", Json.str "ignored")]

/-- Test fixture: a `TweetDetail` entry whose id contains the marker and
whose resolved result is the given object. -/
def mkTweetEntry (entry_id : String) (result : Json) : Json :=
  Json.obj
    [("entryId", Json.str entry_id),
     ("content", Json.obj
       [("itemContent", Json.obj
         [("tweet_results", Json.obj [("result", result)])])])]

/-- Test fixture: a tombstone result object (not a post). -/
def tombRes : Json := Json.obj [("__typename", Json.str "TweetTombstone")]

/-- Test fixture: a minimal post-typed result object. -/
def tweetRes : Json := Json.obj [("__typename", Json.str "Tweet")]

/-! ### Helper lemmas -/

@[simp]
theorem ok_bind {α β : Type} (a : α) (f : α → Except Unit β) :
    ((Except.ok a : Except Unit α) >>= f) = f a := rfl

@[simp]
theorem error_bind {α β : Type} (f : α → Except Unit β) :
    ((Except.error () : Except Unit α) >>= f) = Except.error () := rfl

@[simp]
theorem pure_eq_ok {α : Type} (a : α) : (pure a : Except Unit α) = Except.ok a := rfl

theorem bind_ok_inv {α β : Type} {x : Except Unit α} {f : α → Except Unit β} {b : β}
    (h : (x >>= f) = .ok b) : ∃ a, x = .ok a ∧ f a = .ok b := by
  cases x with
  | error e => cases e; simp at h
  | ok a => exact ⟨a, rfl, by simpa using h⟩

theorem jsonEqStr_true {j : Json} {s : String} (h : jsonEqStr j s = true) :
    j = Json.str s := by
  cases j <;> simp [jsonEqStr] at h
  simp [h]

/-- A `.get` that returned a non-`None` value was performed on a non-empty
dict, which is truthy in Python. -/
theorem pyGet_ok_truthy {r : Json} {k : String} {v : Json}
    (h : pyGet r k = .ok v) (hv : v ≠ Json.null) : pyTruthy r = true := by
  cases r <;> simp [pyGet] at h
  case obj kvs =>
    cases kvs with
    | nil => exact absurd h.symm (by simpa [jLookup] using hv)
    | cons kv rest => rfl

/-- A falsy JSON document never extracts in the primary shape. -/
theorem extract_detail_falsy (now : String) {d : Json} (h : pyTruthy d = false) :
    extract_from_tweet_detail now d = none := by
  cases d with
  | obj kvs =>
    cases kvs with
    | nil => rfl
    | cons kv rest => simp [pyTruthy] at h
  | null => rfl
  | bool b => cases b with
    | false => rfl
    | true => simp [pyTruthy] at h
  | num n => rfl
  | str s => rfl
  | arr xs => rfl

/-- A falsy JSON document never extracts in the secondary shape. -/
theorem extract_result_falsy (now : String) {d : Json} (h : pyTruthy d = false) :
    extract_from_tweet_result now d = none := by
  cases d with
  | obj kvs =>
    cases kvs with
    | nil => rfl
    | cons kv rest => simp [pyTruthy] at h
  | null => rfl
  | bool b => cases b with
    | false => rfl
    | true => simp [pyTruthy] at h
  | num n => rfl
  | str s => rfl
  | arr xs => rfl

/-- An entry the loop breaks on resolved to a `Tweet`-typed (hence truthy)
result object. -/
theorem entryQualifies_some {e r : Json} (h : entryQualifies e = .ok (some r)) :
    pyGet r "__typename" = .ok (Json.str "Tweet") ∧ pyTruthy r = true := by
  unfold entryQualifies at h
  obtain ⟨eid, _, h⟩ := bind_ok_inv h
  obtain ⟨m, _, h⟩ := bind_ok_inv h
  cases m with
  | false => simp at h
  | true =>
    simp only [if_true] at h
    obtain ⟨res, _, h⟩ := bind_ok_inv h
    obtain ⟨tn, htn, h⟩ := bind_ok_inv h
    by_cases hq : jsonEqStr tn "Tweet" = true
    · rw [hq] at h
      simp only [if_true, pure_eq_ok, Except.ok.injEq, Option.some.injEq] at h
      subst h
      rw [jsonEqStr_true hq] at htn
      exact ⟨htn, pyGet_ok_truthy htn (by simp)⟩
    · rw [Bool.not_eq_true] at hq
      rw [hq] at h
      simp at h

/-- The focal tweet found by the entry scan is `Tweet`-typed and truthy. -/
theorem findFocal_some {es : List Json} {r : Json}
    (h : findFocal es = .ok (some r)) :
    pyGet r "__typename" = .ok (Json.str "Tweet") ∧ pyTruthy r = true := by
  induction es with
  | nil => simp [findFocal] at h
  | cons e rest ih =>
    rw [findFocal] at h
    obtain ⟨q, hq, h⟩ := bind_ok_inv h
    cases q with
    | some r0 =>
      simp only [pure_eq_ok, Except.ok.injEq, Option.some.injEq] at h
      subst h
      exact entryQualifies_some hq
    | none => exact ih h

/-- The focal tweet located in a primary-shape response is `Tweet`-typed. -/
theorem tweetDetailFocal_some {d ft : Json}
    (h : tweetDetailFocal d = .ok (some ft)) :
    pyGet ft "__typename" = .ok (Json.str "Tweet") ∧ pyTruthy ft = true := by
  unfold tweetDetailFocal at h
  obtain ⟨data, _, h⟩ := bind_ok_inv h
  obtain ⟨conv, _, h⟩ := bind_ok_inv h
  obtain ⟨instructions, _, h⟩ := bind_ok_inv h
  obtain ⟨instr_list, _, h⟩ := bind_ok_inv h
  obtain ⟨entOpt, _, h⟩ := bind_ok_inv h
  cases entOpt with
  | none => simp at h
  | some entries =>
    simp only at h
    by_cases ht : pyTruthy entries = true
    · rw [ht] at h
      simp only [if_true] at h
      obtain ⟨entry_list, _, h⟩ := bind_ok_inv h
      exact findFocal_some h
    · rw [Bool.not_eq_true] at ht
      rw [ht] at h
      simp at h

/-- A produced primary-shape result comes from a located, `Tweet`-typed
focal object. -/
theorem detail_isSome_focal {now : String} {d : Json}
    (h : (extract_from_tweet_detail now d).isSome = true) :
    ∃ ft, tweetDetailFocal d = .ok (some ft) ∧
      pyGet ft "__typename" = .ok (Json.str "Tweet") := by
  unfold extract_from_tweet_detail at h
  cases hcore : tweetDetailCore now d with
  | error e => rw [hcore] at h; simp at h
  | ok o =>
    rw [hcore] at h
    cases o with
    | none => simp at h
    | some ed =>
      unfold tweetDetailCore at hcore
      obtain ⟨ftOpt, hft, hcont⟩ := bind_ok_inv hcore
      cases ftOpt with
      | none => simp at hcont
      | some ft => exact ⟨ft, hft, (tweetDetailFocal_some hft).1⟩

/-- A produced secondary-shape result comes from a `Tweet`-typed target. -/
theorem result_isSome_target {now : String} {d : Json}
    (h : (extract_from_tweet_result now d).isSome = true) :
    ∃ t, secondaryTarget d = .ok t ∧
      pyGet t "__typename" = .ok (Json.str "Tweet") := by
  unfold extract_from_tweet_result at h
  cases hcore : tweetResultCore now d with
  | error e => rw [hcore] at h; simp at h
  | ok o =>
    rw [hcore] at h
    cases o with
    | none => simp at h
    | some ed =>
      unfold tweetResultCore at hcore
      obtain ⟨w, hw, hcore⟩ := bind_ok_inv hcore
      obtain ⟨t, ht, hcore⟩ := bind_ok_inv hcore
      obtain ⟨tn, htn, hcore⟩ := bind_ok_inv hcore
      by_cases hq : jsonEqStr tn "Tweet" = true
      · refine ⟨t, ?_, ?_⟩
        · unfold secondaryTarget
          rw [hw, ok_bind, ht]
        · rw [jsonEqStr_true hq] at htn
          exact htn
      · rw [Bool.not_eq_true] at hq
        rw [hq] at hcore
        simp at hcore

/-- When the secondary target is not `Tweet`-typed (or reading its
discriminant raises), extraction yields no result. -/
theorem result_target_not_tweet {now : String} {d t : Json}
    (ht : secondaryTarget d = .ok t)
    (hne : pyGet t "__typename" ≠ .ok (Json.str "Tweet")) :
    extract_from_tweet_result now d = none := by
  unfold secondaryTarget at ht
  obtain ⟨w, hw, ht⟩ := bind_ok_inv ht
  unfold extract_from_tweet_result tweetResultCore
  rw [hw, ok_bind, ht, ok_bind]
  cases htn : pyGet t "__typename" with
  | error e => cases e; rfl
  | ok tn =>
    rw [ok_bind]
    by_cases hq : jsonEqStr tn "Tweet" = true
    · exact absurd (jsonEqStr_true hq ▸ htn) hne
    · rw [Bool.not_eq_true] at hq
      rw [hq]
      rfl

/-- When the primary-shape entry scan completes without locating a focal
tweet, extraction yields no result. -/
theorem detail_focal_none {now : String} {d : Json}
    (h : tweetDetailFocal d = .ok none) :
    extract_from_tweet_detail now d = none := by
  unfold extract_from_tweet_detail tweetDetailCore
  rw [h, ok_bind]
  rfl

/-- Index-wise specification of the media loop: one output item per source
item, in source order, holding exactly the three copied fields. -/
theorem extractMedia_spec :
    ∀ (ms : List Json) (l : List MediaItem), extractMedia ms = .ok l →
      l.length = ms.length ∧
      ∀ i (hm : i < ms.length) (hl : i < l.length),
        pyGet (ms.get ⟨i, hm⟩) "type" = .ok ((l.get ⟨i, hl⟩).type) ∧
        pyGet (ms.get ⟨i, hm⟩) "media_url_https" = .ok ((l.get ⟨i, hl⟩).url) ∧
        pyGet (ms.get ⟨i, hm⟩) "display_url" = .ok ((l.get ⟨i, hl⟩).display_url) := by
  intro ms
  induction ms with
  | nil =>
    intro l h
    simp only [extractMedia, Except.ok.injEq] at h
    subst h
    exact ⟨rfl, fun i hm => absurd hm (Nat.not_lt_zero i)⟩
  | cons m rest ih =>
    intro l h
    rw [extractMedia] at h
    obtain ⟨t, htt, h⟩ := bind_ok_inv h
    obtain ⟨u, htu, h⟩ := bind_ok_inv h
    obtain ⟨du, htd, h⟩ := bind_ok_inv h
    obtain ⟨tail, htail, h⟩ := bind_ok_inv h
    simp only [pure_eq_ok, Except.ok.injEq] at h
    subst h
    obtain ⟨hlen, hidx⟩ := ih tail htail
    refine ⟨by simp [hlen], ?_⟩
    intro i hm hl
    cases i with
    | zero => exact ⟨htt, htu, htd⟩
    | succ j =>
      exact hidx j (Nat.lt_of_succ_lt_succ hm) (Nat.lt_of_succ_lt_succ hl)

/-! ### Claim theorems -/

/-- Claim C2: for every response document and for both shapes, an extraction
result is produced only when the located target object's `__typename` equals
`"Tweet"`; any other discriminant, or an absent target, yields no result. -/
theorem claim_C2_tweet_discriminant_invariant (now : String) (d : Json) :
    ((extract_from_tweet_detail now d).isSome = true →
      ∃ ft, tweetDetailFocal d = .ok (some ft) ∧
        pyGet ft "__typename" = .ok (Json.str "Tweet"))
  ∧ (tweetDetailFocal d = .ok none → extract_from_tweet_detail now d = none)
  ∧ ((extract_from_tweet_result now d).isSome = true →
      ∃ t, secondaryTarget d = .ok t ∧
        pyGet t "__typename" = .ok (Json.str "Tweet"))
  ∧ (∀ t, secondaryTarget d = .ok t →
      pyGet t "__typename" ≠ .ok (Json.str "Tweet") →
      extract_from_tweet_result now d = none) :=
  ⟨fun h => detail_isSome_focal h, fun h => detail_focal_none h,
   fun h => result_isSome_target h, fun _ ht hne => result_target_not_tweet ht hne⟩

theorem claim_C2_witness :
    extract_from_tweet_detail "T" (mkDetailResponse [Json.obj []]) = none :=
  (claim_C2_tweet_discriminant_invariant "T" (mkDetailResponse [Json.obj []])).2.1 rfl

/-- Claim C3 counterexample: in the response `dC3`, the first entry whose id
contains `tweet-` resolves to a tombstone (not `"Tweet"`), yet extraction
succeeds — the code keeps scanning later entries, while the claim says
extraction fails with no further entries inspected. -/
def dC3 : Json :=
  mkDetailResponse [mkTweetEntry "tweet-1" tombRes, mkTweetEntry "tweet-2" tweetRes]

theorem claim_C3_counterexample :
    pyInStr "tweet-" (Json.str "tweet-1") = .ok true ∧
    entryResultChain (mkTweetEntry "tweet-1" tombRes) = .ok tombRes ∧
    pyGet tombRes "__typename" = .ok (Json.str "TweetTombstone") ∧
    (extract_from_tweet_detail "T" dC3).isSome = true :=
  ⟨rfl, rfl, rfl, rfl⟩

/-- Claim C3 (amended): when a marker-matching entry's resolved result is not
post-typed, that entry is skipped and the scan continues with the later
entries; extraction fails only if no entry qualifies. -/
theorem claim_C3_amended_skip_non_tweet (e : Json) (rest : List Json)
    (eid r tn : Json)
    (hid : pyGetD e "entryId" (Json.str "") = .ok eid)
    (hm : pyInStr "tweet-" eid = .ok true)
    (hres : entryResultChain e = .ok r)
    (htn : pyGet r "__typename" = .ok tn)
    (hnot : jsonEqStr tn "Tweet" = false) :
    findFocal (e :: rest) = findFocal rest := by
  have hq : entryQualifies e = .ok none := by
    unfold entryQualifies
    rw [hid, ok_bind, hm, ok_bind]
    simp [hres, htn, hnot]
  rw [findFocal, hq, ok_bind]

theorem claim_C3_witness :
    findFocal [mkTweetEntry "tweet-9" tombRes] = findFocal [] :=
  claim_C3_amended_skip_non_tweet (mkTweetEntry "tweet-9" tombRes) []
    (Json.str "tweet-9") tombRes (Json.str "TweetTombstone") rfl rfl rfl rfl rfl

/-- Claim C5: the object-to-record mapping never fails on absent leaves: a
post object with every optional leaf absent yields the documented defaults
(empty strings, zero counts, false booleans, absent view count and id, empty
media), and every leaf read on a dict succeeds, returning the stored value or
the default. -/
theorem claim_C5_leaf_defaults (now : String) :
    _extract_tweet_data now (Json.obj [("__typename", Json.str "Tweet")]) =
      .ok { extracted_at := now
            tweet :=
              { tweet_id := Json.null, text := Json.str "", created_at := Json.str ""
                retweet_count := Json.num 0, favorite_count := Json.num 0
                reply_count := Json.num 0, quote_count := Json.num 0
                bookmark_count := Json.num 0, views := Json.null
                lang := Json.str "", source := Json.str "", media := [] }
            user :=
              { user_id := Json.null, screen_name := Json.str "", name := Json.str ""
                description := Json.str "", location := Json.str ""
                followers_count := Json.num 0, friends_count := Json.num 0
                statuses_count := Json.num 0, created_at := Json.str ""
                verified := Json.bool false, is_blue_verified := Json.bool false
                profile_image_url := Json.str "", profile_banner_url := Json.str ""
                url := Json.str "" } }
  ∧ ∀ (kvs : List (String × Json)) (k : String) (dflt : Json),
      pyGetD (Json.obj kvs) k dflt = .ok ((jLookup k kvs).getD dflt) :=
  ⟨rfl, fun _ _ _ => rfl⟩

/-- Claim C7: the two verification flags are sourced independently —
`verified` from the author legacy sub-object, `is_blue_verified` from the
author result object — even when each object carries a decoy field of the
other name. -/
theorem claim_C7_verification_flags (now : String) (b1 b2 : Bool) :
    (_extract_tweet_data now (Json.obj
      [("core", Json.obj [("user_results", Json.obj [("result", Json.obj
        [("is_blue_verified", Json.bool b2), ("verified", Json.bool (!b1)),
         ("legacy", Json.obj [("verified", Json.bool b1),
                              ("is_blue_verified", Json.bool (!b2))])])])])])).map
      (fun r => (r.user.verified, r.user.is_blue_verified))
    = .ok (Json.bool b1, Json.bool b2) := rfl

/-- Claim C8: an error raised anywhere inside either extraction path is
caught at the path's boundary and surfaces as the ordinary `none`; a list
where an object was expected, or a document with the expected key absent,
yields `none` for both shapes. -/
theorem claim_C8_no_exception_across_boundary (now : String) (d : Json) :
    (tweetDetailCore now d = .error () → extract_from_tweet_detail now d = none)
  ∧ (tweetResultCore now d = .error () → extract_from_tweet_result now d = none)
  ∧ (∀ xs : List Json,
      extract_from_tweet_detail now (Json.arr xs) = none ∧
      extract_from_tweet_result now (Json.arr xs) = none)
  ∧ (extract_from_tweet_detail now (Json.obj []) = none ∧
     extract_from_tweet_result now (Json.obj []) = none) := by
  refine ⟨fun h => ?_, fun h => ?_, fun xs => ⟨rfl, rfl⟩, ⟨rfl, rfl⟩⟩
  · unfold extract_from_tweet_detail
    rw [h]
  · unfold extract_from_tweet_result
    rw [h]

theorem claim_C8_witness :
    extract_from_tweet_detail "T" (Json.num 0) = none :=
  (claim_C8_no_exception_across_boundary "T" (Json.num 0)).1 rfl

/-- Claim C10: the identifiers of the returned records come from the
response's own `rest_id` fields, not from the requested tweet id; an absent
`rest_id` yields `None` (not an empty string), and the returned identifier
can differ from the identifier that was requested. -/
theorem claim_C10_rest_id_identifiers (now : String) :
    (∀ idv uidv : Json,
      (_extract_tweet_data now (Json.obj
        [("rest_id", idv),
         ("core", Json.obj [("user_results", Json.obj
           [("result", Json.obj [("rest_id", uidv)])])])])).map
        (fun r => (r.tweet.tweet_id, r.user.user_id)) = .ok (idv, uidv))
  ∧ ((_extract_tweet_data now (Json.obj [])).map
        (fun r => (r.tweet.tweet_id, r.user.user_id)) = .ok (Json.null, Json.null))
  ∧ Json.null ≠ Json.str ""
  ∧ ((fetch_and_extract
        (fun _ => some (mkDetailResponse [mkTweetEntry "tweet-1"
          (Json.obj [("__typename", Json.str "Tweet"),
                     ("rest_id", Json.str "999")])]))
        (fun _ => none) now "123").fst.map (fun r => r.tweet.tweet_id)
      = some (Json.str "999")) :=
  ⟨fun _ _ => rfl, rfl, fun h => Json.noConfusion h, rfl⟩

theorem claim_C10_witness :
    (_extract_tweet_data "T" (Json.obj
      [("rest_id", Json.str "999"),
       ("core", Json.obj [("user_results", Json.obj
         [("result", Json.obj [("rest_id", Json.null)])])])])).map
      (fun r => (r.tweet.tweet_id, r.user.user_id))
      = .ok (Json.str "999", Json.null) :=
  (claim_C10_rest_id_identifiers "T").1 (Json.str "999") Json.null

/-- Claim C1: the orchestration fetches the primary shape first; when the
primary fetch succeeds and primary extraction yields a result, that result is
returned and the secondary endpoint is never fetched (call trace
`[detail]`); when the primary fetch fails or primary extraction yields no
result, the secondary endpoint is fetched exactly once (call trace
`[detail, result]`) and the returned value is exactly the secondary path's
extraction output (or `none`). -/
theorem claim_C1_fallback_orchestration
    (fetchDetail fetchResult : String → Option Json) (now tweet_id : String) :
    (∀ d ed, fetchDetail tweet_id = some d →
      extract_from_tweet_detail now d = some ed →
      fetch_and_extract fetchDetail fetchResult now tweet_id
        = (some ed, [FetchCall.detail tweet_id]))
  ∧ ((fetchDetail tweet_id = none ∨
      ∃ d, fetchDetail tweet_id = some d ∧ extract_from_tweet_detail now d = none) →
      fetch_and_extract fetchDetail fetchResult now tweet_id
        = ((match fetchResult tweet_id with
            | some d2 => extract_from_tweet_result now d2
            | none => none),
           [FetchCall.detail tweet_id, FetchCall.result tweet_id])) := by
  constructor
  · intro d ed hfd hex
    have ht : pyTruthy d = true := by
      by_contra hc
      rw [Bool.not_eq_true] at hc
      rw [extract_detail_falsy now hc] at hex
      exact Option.noConfusion hex
    simp only [fetch_and_extract, hfd, ht, if_true, hex]
  · intro hcase
    have hnone : (match fetchDetail tweet_id with
        | some api_data =>
          if pyTruthy api_data then extract_from_tweet_detail now api_data else none
        | none => none) = (none : Option ExtractedData) := by
      rcases hcase with h | ⟨d, hfd, hex⟩
      · rw [h]
      · rw [hfd]
        cases ht : pyTruthy d <;> simp [hex]
    simp only [fetch_and_extract, hnone]
    cases hfr : fetchResult tweet_id with
    | none => rfl
    | some d2 =>
      cases ht2 : pyTruthy d2 with
      | true => simp [ht2]
      | false => simp [extract_result_falsy now ht2]

theorem claim_C1_witness :
    fetch_and_extract (fun _ => none) (fun _ => none) "T" "1"
      = (none, [FetchCall.detail "1", FetchCall.result "1"]) :=
  (claim_C1_fallback_orchestration (fun _ => none) (fun _ => none) "T" "1").2
    (Or.inl rfl)

/-- Claim C4: primary-shape extraction selects the first entry that both
matches the `tweet-` marker and resolves to a post-typed result, skipping an
earlier non-qualifying entry: on the entry list `[e0, eX, eY]` where `e0`
does not qualify and `eX` qualifies with result `rX`, the output is exactly
`rX`'s mapped record. -/
theorem claim_C4_first_qualifying_entry (now : String) (e0 eX eY rX : Json)
    (h0 : entryQualifies e0 = .ok none)
    (hX : entryQualifies eX = .ok (some rX)) :
    extract_from_tweet_detail now (mkDetailResponse [e0, eX, eY])
      = (_extract_tweet_data now rX).toOption := by
  have hfocal : tweetDetailFocal (mkDetailResponse [e0, eX, eY]) = .ok (some rX) := by
    have h1 : tweetDetailFocal (mkDetailResponse [e0, eX, eY])
        = findFocal [e0, eX, eY] := rfl
    rw [h1, findFocal, h0, ok_bind]
    show findFocal [eX, eY] = _
    rw [findFocal, hX, ok_bind]
    rfl
  have htr : pyTruthy rX = true := (entryQualifies_some hX).2
  unfold extract_from_tweet_detail tweetDetailCore
  rw [hfocal, ok_bind]
  show (match (if pyTruthy rX then do
        let ed ← _extract_tweet_data now rX
        pure (some ed)
      else pure (none : Option ExtractedData)) with
    | Except.ok r => r
    | Except.error _ => none) = _
  rw [htr]
  cases hed : _extract_tweet_data now rX with
  | error e => cases e; simp [hed, Except.toOption]
  | ok ed => simp [hed, Except.toOption]

theorem claim_C4_witness :
    extract_from_tweet_detail "T"
        (mkDetailResponse [Json.obj [], mkTweetEntry "tweet-2" tweetRes, Json.null])
      = (_extract_tweet_data "T" tweetRes).toOption :=
  claim_C4_first_qualifying_entry "T" (Json.obj [])
    (mkTweetEntry "tweet-2" tweetRes) Json.null tweetRes rfl rfl

/-- Claim C6: the output media sequence has one item per source media entry,
in source order, holding exactly the three copied fields; vendor fields
beyond these are dropped, and an absent media list yields an empty output
sequence. -/
theorem claim_C6_media_order (now : String) :
    (∀ (ms : List Json) (l : List MediaItem), extractMedia ms = .ok l →
      l.length = ms.length ∧
      ∀ i (hm : i < ms.length) (hl : i < l.length),
        pyGet (ms.get ⟨i, hm⟩) "type" = .ok ((l.get ⟨i, hl⟩).type) ∧
        pyGet (ms.get ⟨i, hm⟩) "media_url_https" = .ok ((l.get ⟨i, hl⟩).url) ∧
        pyGet (ms.get ⟨i, hm⟩) "display_url" = .ok ((l.get ⟨i, hl⟩).display_url))
  ∧ (∀ tA uA dA tB uB dB tC uC dC : Json,
      extractMedia [mkMediaObj tA uA dA, mkMediaObj tB uB dB, mkMediaObj tC uC dC]
        = .ok [{ type := tA, url := uA, display_url := dA },
               { type := tB, url := uB, display_url := dB },
               { type := tC, url := uC, display_url := dC }])
  ∧ ((_extract_tweet_data now (Json.obj
        [("legacy", Json.obj [("full_text", Json.str "hello")])])).map
      (fun r => r.tweet.media) = .ok []) :=
  ⟨extractMedia_spec, fun _ _ _ _ _ _ _ _ _ => rfl, rfl⟩

theorem claim_C6_witness :
    ([{ type := Json.str "photo", url := Json.null, display_url := Json.null }]
        : List MediaItem).length
      = [mkMediaObj (Json.str "photo") Json.null Json.null].length :=
  ((claim_C6_media_order "T").1
    [mkMediaObj (Json.str "photo") Json.null Json.null]
    [{ type := Json.str "photo", url := Json.null, display_url := Json.null }]
    rfl).1

/-- Claim C9: offline re-extraction applies the same two extraction paths in
the same order as the live pipeline, and on the same raw document produces
the same result (the extraction timestamp is the same `now` parameter on
both sides). -/
theorem claim_C9_offline_equivalence (now tweet_id : String) (d : Json) :
    extract_from_file now d =
      (fetch_and_extract (fun _ => some d) (fun _ => some d) now tweet_id).fst := by
  simp only [fetch_and_extract, extract_from_file]
  cases ht : pyTruthy d with
  | true =>
    simp only [ht, if_true]
    cases hx : extract_from_tweet_detail now d <;> simp [hx, ht]
  | false =>
    simp [ht, extract_detail_falsy now ht, extract_result_falsy now ht]

end Twatter
